import Mathlib

/-!
Verification of the PIX receipt recording core (AI-Comprovantes).

Shallow embedding of the TypeScript sources:
  * `processPixReceipt.ts` — intake pipeline (`processPixReceipt`) and the
    ledger writer (`planilha`, `marcarComprovanteNaAbaMain`) together with its
    helpers (`normalizeText`, `getColumnFromOffset`).
  * `config.ts` — the configuration constants (defaults as shipped).

Remote I/O (Google Sheets / Drive) is modelled by explicit state passing:
sheet contents and the drive folder are inputs, every remote call is recorded
in an operation trace, and a set of cell addresses whose `update` call fails
models independent remote write failure.  Exceptions are modelled by an
`Option PlanilhaError` outcome carrying the thrown message data.
-/

/-! ## Character and string utilities -/

/-- NFD decomposition of the precomposed Latin letters that occur in
Brazilian-Portuguese text, as performed by JavaScript
`String.prototype.normalize("NFD")`.  Other characters map to themselves. -/
def nfd (c : Char) : List Char :=
  if c = 'à' then ['a', Char.ofNat 768]
  else if c = 'á' then ['a', Char.ofNat 769]
  else if c = 'â' then ['a', Char.ofNat 770]
  else if c = 'ã' then ['a', Char.ofNat 771]
  else if c = 'ä' then ['a', Char.ofNat 776]
  else if c = 'è' then ['e', Char.ofNat 768]
  else if c = 'é' then ['e', Char.ofNat 769]
  else if c = 'ê' then ['e', Char.ofNat 770]
  else if c = 'ë' then ['e', Char.ofNat 776]
  else if c = 'ì' then ['i', Char.ofNat 768]
  else if c = 'í' then ['i', Char.ofNat 769]
  else if c = 'î' then ['i', Char.ofNat 770]
  else if c = 'ï' then ['i', Char.ofNat 776]
  else if c = 'ò' then ['o', Char.ofNat 768]
  else if c = 'ó' then ['o', Char.ofNat 769]
  else if c = 'ô' then ['o', Char.ofNat 770]
  else if c = 'õ' then ['o', Char.ofNat 771]
  else if c = 'ö' then ['o', Char.ofNat 776]
  else if c = 'ù' then ['u', Char.ofNat 768]
  else if c = 'ú' then ['u', Char.ofNat 769]
  else if c = 'û' then ['u', Char.ofNat 770]
  else if c = 'ü' then ['u', Char.ofNat 776]
  else if c = 'ç' then ['c', Char.ofNat 807]
  else if c = 'ñ' then ['n', Char.ofNat 771]
  else if c = 'À' then ['A', Char.ofNat 768]
  else if c = 'Á' then ['A', Char.ofNat 769]
  else if c = 'Â' then ['A', Char.ofNat 770]
  else if c = 'Ã' then ['A', Char.ofNat 771]
  else if c = 'Ä' then ['A', Char.ofNat 776]
  else if c = 'È' then ['E', Char.ofNat 768]
  else if c = 'É' then ['E', Char.ofNat 769]
  else if c = 'Ê' then ['E', Char.ofNat 770]
  else if c = 'Ë' then ['E', Char.ofNat 776]
  else if c = 'Ì' then ['I', Char.ofNat 768]
  else if c = 'Í' then ['I', Char.ofNat 769]
  else if c = 'Î' then ['I', Char.ofNat 770]
  else if c = 'Ï' then ['I', Char.ofNat 776]
  else if c = 'Ò' then ['O', Char.ofNat 768]
  else if c = 'Ó' then ['O', Char.ofNat 769]
  else if c = 'Ô' then ['O', Char.ofNat 770]
  else if c = 'Õ' then ['O', Char.ofNat 771]
  else if c = 'Ö' then ['O', Char.ofNat 776]
  else if c = 'Ù' then ['U', Char.ofNat 768]
  else if c = 'Ú' then ['U', Char.ofNat 769]
  else if c = 'Û' then ['U', Char.ofNat 770]
  else if c = 'Ü' then ['U', Char.ofNat 776]
  else if c = 'Ç' then ['C', Char.ofNat 807]
  else if c = 'Ñ' then ['N', Char.ofNat 771]
  else [c]

/-- A combining diacritical mark, the range removed by
`.replace(/[̀-ͯ]/g, "")` in `normalizeText`. -/
def isCombining (c : Char) : Bool :=
  768 ≤ c.toNat && c.toNat ≤ 879

/-- JavaScript `toLowerCase` restricted to the alphabet handled by `nfd`
plus ASCII. -/
def jsToLower (c : Char) : Char :=
  if c = 'À' then 'à' else if c = 'Á' then 'á'
  else if c = 'Â' then 'â' else if c = 'Ã' then 'ã'
  else if c = 'Ä' then 'ä' else if c = 'È' then 'è'
  else if c = 'É' then 'é' else if c = 'Ê' then 'ê'
  else if c = 'Ë' then 'ë' else if c = 'Ì' then 'ì'
  else if c = 'Í' then 'í' else if c = 'Î' then 'î'
  else if c = 'Ï' then 'ï' else if c = 'Ò' then 'ò'
  else if c = 'Ó' then 'ó' else if c = 'Ô' then 'ô'
  else if c = 'Õ' then 'õ' else if c = 'Ö' then 'ö'
  else if c = 'Ù' then 'ù' else if c = 'Ú' then 'ú'
  else if c = 'Û' then 'û' else if c = 'Ü' then 'ü'
  else if c = 'Ç' then 'ç' else if c = 'Ñ' then 'ñ'
  else c.toLower

/-- JavaScript `toUpperCase` restricted to the alphabet handled by `nfd`
plus ASCII. -/
def jsToUpper (c : Char) : Char :=
  if c = 'à' then 'À' else if c = 'á' then 'Á'
  else if c = 'â' then 'Â' else if c = 'ã' then 'Ã'
  else if c = 'ä' then 'Ä' else if c = 'è' then 'È'
  else if c = 'é' then 'É' else if c = 'ê' then 'Ê'
  else if c = 'ë' then 'Ë' else if c = 'ì' then 'Ì'
  else if c = 'í' then 'Í' else if c = 'î' then 'Î'
  else if c = 'ï' then 'Ï' else if c = 'ò' then 'Ò'
  else if c = 'ó' then 'Ó' else if c = 'ô' then 'Ô'
  else if c = 'õ' then 'Õ' else if c = 'ö' then 'Ö'
  else if c = 'ù' then 'Ù' else if c = 'ú' then 'Ú'
  else if c = 'û' then 'Û' else if c = 'ü' then 'Ü'
  else if c = 'ç' then 'Ç' else if c = 'ñ' then 'Ñ'
  else c.toUpper

/-- Whitespace for `trim`. -/
def isWs (c : Char) : Bool :=
  c = ' ' || c = '\t' || c = '\n' || c = '\r'

/-- JavaScript `String.prototype.trim` on a character list. -/
def trimChars (l : List Char) : List Char :=
  ((l.dropWhile isWs).reverse.dropWhile isWs).reverse

/-- `normalizeText` from `planilha.ts`:
`text.normalize("NFD").replace(/[̀-ͯ]/g, "").toLowerCase().trim()`. -/
def normalizeText (s : String) : String :=
  String.mk (trimChars ((((s.data.flatMap nfd).filter
    (fun c => !isCombining c))).map jsToLower))

/-- `needle` begins `hay` (character-level). -/
def listLeads : List Char → List Char → Bool
  | [], _ => true
  | _ :: _, [] => false
  | a :: as, b :: bs => a == b && listLeads as bs

/-- `needle` occurs contiguously inside `hay`; the character-level model of
JavaScript `String.prototype.includes`. -/
def listContainsSub (needle : List Char) : List Char → Bool
  | [] => listLeads needle []
  | c :: t => listLeads needle (c :: t) || listContainsSub needle t

/-- `hay.includes(needle)` for strings. -/
def strIncludes (hay needle : String) : Bool :=
  listContainsSub needle.data hay.data

/-- JavaScript `str.split(' ')` on a character list: splits at every single
space character, keeping empty fragments, and maps `""` to `[""]`. -/
def splitOnSpace : List Char → List (List Char)
  | [] => [[]]
  | c :: t =>
    let r := splitOnSpace t
    if c = ' ' then [] :: r
    else
      match r with
      | [] => [[c]]
      | w :: ws => (c :: w) :: ws

/-- JavaScript `arr.join(' ')` on character lists. -/
def joinSpace : List (List Char) → List Char
  | [] => []
  | [w] => w
  | w :: ws => w ++ ' ' :: joinSpace ws

/-- First-match index search, the model of JavaScript
`Array.prototype.findIndex` (with `-1` rendered as `none`). -/
def findIdxO {α : Type} (p : α → Bool) : List α → Option Nat
  | [] => none
  | a :: t => if p a then some 0 else Option.map (fun n => n + 1) (findIdxO p t)

/-! ## Configuration constants (`config.ts` defaults as shipped) -/

def nameColumn : String := "A"

def nameStartRow : Nat := 2

def nameEndRow : Nat := 29

def headerRow : Nat := 1

def monthStartColumn : String := "B"

def monthEndColumn : String := "L"

def formulaSeparator : String := ";"

def sheetName : String := "Comprovantes"

def mainSheetName : String := "Main"

/-- `SPREADSHEET_CONFIG.nameRange` getter. -/
def nameRange : String :=
  nameColumn ++ toString nameStartRow ++ ":" ++ nameColumn ++ toString nameEndRow

/-- `SPREADSHEET_CONFIG.headerRange` getter. -/
def headerRange : String :=
  monthStartColumn ++ toString headerRow ++ ":" ++ monthEndColumn ++ toString headerRow

/-- `getColumnFromOffset` from `planilha.ts`:
`String.fromCharCode(SPREADSHEET_CONFIG.monthStartColumn.charCodeAt(0) + offset)`. -/
def getColumnFromOffset (offset : Nat) : String :=
  String.mk [Char.ofNat ((monthStartColumn.data.headD ' ').toNat + offset)]

/-! ## Remote-state model -/

/-- A cell value written through the Sheets API: either a string (formula)
or a boolean mark. -/
inductive CellValue : Type
  | str (s : String)
  | boolVal (b : Bool)
deriving DecidableEq

/-- One remote call performed by the ledger writer, in execution order. -/
inductive Op : Type
  | getValues (range : String)
  | updateValues (range : String) (value : CellValue)
  | driveSearch (fileName : String)
  | driveCreate (fileName : String)
deriving DecidableEq

/-- A stored Drive artifact: name, identifier, shareable link, bytes. -/
structure Artifact : Type where
  name : String
  id : String
  link : String
  content : List Nat
deriving DecidableEq

/-- The Drive folder state: stored artifacts plus a counter used to mint
fresh identifiers/links for newly created artifacts. -/
structure DriveState : Type where
  files : List Artifact
  nextId : Nat
deriving DecidableEq

/-- `ReceiptUpload` from `planilha.ts` (buffer shape of the entry point). -/
structure ReceiptUpload : Type where
  fileName : String
  buffer : List Nat
deriving DecidableEq

/-- Point-in-time contents of the spreadsheet as the remote returns them:
the flattened name column and the header row of the `Comprovantes` sheet and
of the `Main` sheet, plus a cell-address/value association (absent address =
empty cell, as the Sheets API omits empty values). -/
structure SheetData : Type where
  names : List (Option String)
  headers : List (Option String)
  mainNames : List (Option String)
  mainHeaders : List (Option String)
  cells : List (String × String)
deriving DecidableEq

/-- The errors thrown by `planilha` / `marcarComprovanteNaAbaMain`, carrying
the data interpolated into the thrown `Error` message. -/
inductive PlanilhaError : Type
  | nomeNotFound (nome : String)
  | mesNotFound (mes : String)
  | duplicate (nome mes cell existing : String)
  | artifactData (fileName : String)
  | writeFailed (cell : String)
  | mainNomeNotFound (nome : String)
  | mainMesNotFound (mes : String)
deriving DecidableEq

/-- The message string of each thrown `Error`, following the template
literals in the source (`writeFailed` stands for the remote client's own
rejection message when an `update` call fails). -/
def errMessage : PlanilhaError → String
  | PlanilhaError.nomeNotFound nome =>
      "Nome \"" ++ nome ++ "\" não encontrado na coluna " ++ nameColumn ++
      " (linhas " ++ toString nameStartRow ++ "-" ++ toString nameEndRow ++ ")"
  | PlanilhaError.mesNotFound mes =>
      "Coluna \"Comp - " ++ mes ++ "\" não encontrada nos cabeçalhos (" ++
      headerRange ++ ")"
  | PlanilhaError.duplicate nome mes cell existing =>
      "Comprovante já existe para " ++ nome ++ " em " ++ mes ++
      ". Célula " ++ cell ++ " já contém: " ++ existing
  | PlanilhaError.artifactData fileName =>
      "Arquivo existente no Drive sem dados suficientes (id/link): " ++ fileName
  | PlanilhaError.writeFailed cell =>
      "Falha remota ao atualizar a célula " ++ cell
  | PlanilhaError.mainNomeNotFound nome =>
      "Nome \"" ++ nome ++ "\" não encontrado na aba " ++ mainSheetName ++
      " (coluna " ++ nameColumn ++ ", linhas " ++ toString nameStartRow ++
      "-" ++ toString nameEndRow ++ ")"
  | PlanilhaError.mainMesNotFound mes =>
      "Mês \"" ++ mes ++ "\" não encontrado nos cabeçalhos da aba " ++
      mainSheetName ++ " (" ++ headerRange ++ ")"

/-! ## Row / column lookups -/

/-- The row lookup of `planilha` (and of `marcarComprovanteNaAbaMain`):
`names.findIndex((n) => normalizeText(n ?? "") === normalizeText(nome))`. -/
def findRowIndex (names : List (Option String)) (nome : String) : Option Nat :=
  findIdxO (fun n => decide (normalizeText (n.getD "") = normalizeText nome)) names

/-- The ledger (main-table) column lookup of `planilha`:
`headers.findIndex((h) => (h ?? "").includes(mes) && (h ?? "").includes("Comp"))`.
Note both containment tests are on the RAW label. -/
def findLedgerColIndex (headers : List (Option String)) (mes : String) : Option Nat :=
  findIdxO (fun h => strIncludes (h.getD "") mes && strIncludes (h.getD "") "Comp") headers

/-- The Summary View (`Main` sheet) column lookup of
`marcarComprovanteNaAbaMain`:
`mainHeaders.findIndex((h) => normalizeText(h ?? "").includes(normalizeText(mes)))`. -/
def findMainColIndex (headers : List (Option String)) (mes : String) : Option Nat :=
  findIdxO (fun h => strIncludes (normalizeText (h.getD "")) (normalizeText mes)) headers

/-- The column lookup as the specification words it for the Ledger path:
normalized substring match for the period, raw containment for the marker
token `"Comp"`.  Written from the spec, for comparison with
`findLedgerColIndex` (the code). -/
def specLedgerColIndexNormalized (headers : List (Option String)) (mes : String) : Option Nat :=
  findIdxO (fun h =>
    strIncludes (normalizeText (h.getD "")) (normalizeText mes) &&
    strIncludes (h.getD "") "Comp") headers

/-! ## Cell store helpers -/

/-- Read a cell: `cellCheckResponse.data.values?.[0]?.[0]` — `none` when the
remote returns no value for the address. -/
def lookupCell (cells : List (String × String)) (addr : String) : Option String :=
  Option.map Prod.snd (cells.find? (fun p => decide (p.1 = addr)))

/-- Overwrite a cell in the sheet model. -/
def setCell (sheet : SheetData) (addr value : String) : SheetData :=
  ⟨sheet.names, sheet.headers, sheet.mainNames, sheet.mainHeaders,
    (addr, value) :: sheet.cells.filter (fun p => !decide (p.1 = addr))⟩

/-- `.replace(/"/g, '""')`. -/
def escapeQuotes (s : String) : String :=
  String.mk (s.data.flatMap (fun c => if c = '"' then ['"', '"'] else [c]))

/-- The cross-reference formula written into the ledger cell. -/
def hyperlinkFormula (link fileName : String) : String :=
  "=HYPERLINK(\"" ++ escapeQuotes link ++ "\"" ++ formulaSeparator ++
  "\"" ++ escapeQuotes fileName ++ "\")"

/-- The `<letter-column><row-number>` address of the resolved cell inside a
named sheet: `getColumnFromOffset(colIdx)` next to `rowIdx + nameStartRow`. -/
def cellAddrOf (sheetNm : String) (rowIdx colIdx : Nat) : String :=
  sheetNm ++ "!" ++ getColumnFromOffset colIdx ++ toString (rowIdx + nameStartRow)

/-! ## Artifact store adapter (drive search / create, lines 319-362) -/

/-- The find-or-create block of `planilha`: search the folder for an artifact
of exactly `fileName`; if one exists, reuse its `{id, link}` (failing when the
stored record lacks either); otherwise create a new artifact from the
in-memory buffer with a freshly minted identifier and link.  Returns the
recorded remote calls, the resulting drive state, and `some (id, link)` on
success. -/
def upsert (drive : DriveState) (fileName : String) (buffer : List Nat) :
    List Op × DriveState × Option (String × String) :=
  match drive.files.find? (fun f => decide (f.name = fileName)) with
  | some f =>
    if f.id = "" ∨ f.link = "" then
      ([Op.driveSearch fileName], drive, none)
    else
      ([Op.driveSearch fileName], drive, some (f.id, f.link))
  | none =>
    let id := "gid" ++ toString drive.nextId
    let link := "https://drive.example/" ++ toString drive.nextId
    ([Op.driveSearch fileName, Op.driveCreate fileName],
      ⟨drive.files ++ [⟨fileName, id, link, buffer⟩], drive.nextId + 1⟩,
      some (id, link))

/-! ## Ledger writer -/

/-- `marcarComprovanteNaAbaMain`: re-resolve the row (normalized equality)
and the column (normalized substring, no marker token) in the `Main` sheet
and write the completion mark `true` into that cell.  `updateFails` lists the
cell addresses whose remote `update` call fails. -/
def marcarComprovanteNaAbaMain (sheet : SheetData) (updateFails : List String)
    (nome mes : String) : List Op × SheetData × Option PlanilhaError :=
  let ops0 := [Op.getValues (mainSheetName ++ "!" ++ nameRange),
               Op.getValues (mainSheetName ++ "!" ++ headerRange)]
  match findRowIndex sheet.mainNames nome with
  | none => (ops0, sheet, some (PlanilhaError.mainNomeNotFound nome))
  | some mainNomeIndex =>
    match findMainColIndex sheet.mainHeaders mes with
    | none => (ops0, sheet, some (PlanilhaError.mainMesNotFound mes))
    | some mainMonthIndex =>
      let mainCell := cellAddrOf mainSheetName mainNomeIndex mainMonthIndex
      if mainCell ∈ updateFails then
        (ops0, sheet, some (PlanilhaError.writeFailed mainCell))
      else
        (ops0 ++ [Op.updateValues mainCell (CellValue.boolVal true)],
          setCell sheet mainCell "TRUE", none)

/-- The tail of `planilha` after the duplicate guard passed: find-or-create
the artifact, write the cross-reference formula into `targetCell`, then
propagate the completion mark via `marcarComprovanteNaAbaMain`. -/
def planilhaCont (sheet : SheetData) (drive : DriveState) (updateFails : List String)
    (nome : String) (receipt : ReceiptUpload) (mes : String)
    (targetCell : String) (ops1 : List Op) :
    List Op × DriveState × SheetData × Option PlanilhaError :=
  match upsert drive receipt.fileName receipt.buffer with
  | (uops, drive2, none) =>
    (ops1 ++ uops, drive2, sheet, some (PlanilhaError.artifactData receipt.fileName))
  | (uops, drive2, some (_fid, flink)) =>
    let hyperlink := hyperlinkFormula flink receipt.fileName
    let ops2 := ops1 ++ uops
    if targetCell ∈ updateFails then
      (ops2, drive2, sheet, some (PlanilhaError.writeFailed targetCell))
    else
      let sheet2 := setCell sheet targetCell hyperlink
      let ops3 := ops2 ++ [Op.updateValues targetCell (CellValue.str hyperlink)]
      match marcarComprovanteNaAbaMain sheet2 updateFails nome mes with
      | (mops, sheet3, merr) => (ops3 ++ mops, drive2, sheet3, merr)

/-- `planilha` (buffer entry shape, the primary flow): read the name column
and header row, resolve row and column, run the duplicate guard on the target
cell, then continue with artifact upsert and the two writes.  Config
validation (`spreadsheetId`/`folderId` non-empty) is guaranteed upstream by
`requireEnv` in `config.ts`.  Returns the trace of remote calls, the final
drive and sheet states, and the thrown error if any. -/
def planilha (sheet : SheetData) (drive : DriveState) (updateFails : List String)
    (nome : String) (receipt : ReceiptUpload) (mes : String) :
    List Op × DriveState × SheetData × Option PlanilhaError :=
  let ops0 := [Op.getValues (sheetName ++ "!" ++ nameRange),
               Op.getValues (sheetName ++ "!" ++ headerRange)]
  match findRowIndex sheet.names nome with
  | none => (ops0, drive, sheet, some (PlanilhaError.nomeNotFound nome))
  | some nomeIndex =>
    match findLedgerColIndex sheet.headers mes with
    | none => (ops0, drive, sheet, some (PlanilhaError.mesNotFound mes))
    | some colIndex =>
      let targetCell := cellAddrOf sheetName nomeIndex colIndex
      let ops1 := ops0 ++ [Op.getValues targetCell]
      match lookupCell sheet.cells targetCell with
      | some v =>
        if v = "" then
          planilhaCont sheet drive updateFails nome receipt mes targetCell ops1
        else
          (ops1, drive, sheet, some (PlanilhaError.duplicate nome mes targetCell v))
      | none => planilhaCont sheet drive updateFails nome receipt mes targetCell ops1

/-! ## Intake pipeline (`processPixReceipt.ts`) -/

/-- `capitalizeName`: lower-case the whole string, split on single spaces,
upper-case the first character of each fragment, re-join with spaces. -/
def capitalizeName (name : String) : String :=
  String.mk (joinSpace ((splitOnSpace (name.data.map jsToLower)).map
    (fun w => match w with | [] => [] | c :: t => jsToUpper c :: t)))

/-- `extension.startsWith(".")`. -/
def startsWithDot (extension : String) : Bool :=
  match extension.data with
  | [] => false
  | c :: _ => c == '.'

/-- Steps 3–4 of `processPixReceipt`: the synthesized file name
`primeiroNome + "_" + mes.slice(0, 3) + ext`, with a leading dot prepended to
the extension exactly when missing. -/
def nomeFormatadoDe (nomeCapitalizado mes extension : String) : String :=
  String.mk ((splitOnSpace nomeCapitalizado.data).headD []) ++ "_" ++
  String.mk (mes.data.take 3) ++
  (if startsWithDot extension then extension else "." ++ extension)

/-- `ProcessResult.reason`. -/
inductive Reason : Type
  | notPix
  | error
deriving DecidableEq

/-- `ProcessResult` from `processPixReceipt.ts`. -/
structure ProcessResult : Type where
  success : Bool
  reason : Option Reason
  error : Option String
  nome : Option String
  mes : Option String
  fileName : Option String
deriving DecidableEq

/-- The classifier sentinel returned by `read_image`. -/
def sentinelNaoEPix : String := "Não é PIX"

/-- `processPixReceipt`: the classifier outcome (`read_image` returning a
string or throwing, with message) and the current month name
(`getCurrentMonthName`, wall-clock) enter as parameters; everything inside
the `try` is modelled, and every thrown error is converted by the `catch`
into `{success: false, reason: 'error', error: message}`. -/
def processPixReceipt (sheet : SheetData) (drive : DriveState)
    (updateFails : List String) (classifier : Except String String)
    (imageBuffer : List Nat) (extension : String) (mes : String) :
    ProcessResult × List Op × DriveState × SheetData :=
  match classifier with
  | Except.error msg =>
    (⟨false, some Reason.error, some msg, none, none, none⟩, [], drive, sheet)
  | Except.ok nome =>
    if nome = sentinelNaoEPix then
      (⟨false, some Reason.notPix, none, none, none, none⟩, [], drive, sheet)
    else
      let nomeCapitalizado := capitalizeName nome
      let nomeFormatado := nomeFormatadoDe nomeCapitalizado mes extension
      match planilha sheet drive updateFails nomeCapitalizado
          ⟨nomeFormatado, imageBuffer⟩ mes with
      | (ops, drive2, sheet2, some e) =>
        (⟨false, some Reason.error, some (errMessage e), none, none, none⟩,
          ops, drive2, sheet2)
      | (ops, drive2, sheet2, none) =>
        (⟨true, none, none, some nomeCapitalizado, some mes, some nomeFormatado⟩,
          ops, drive2, sheet2)

/-! ## Trace predicates -/

/-- A drive (artifact-store) call. -/
def isDriveOp : Op → Bool
  | Op.driveSearch _ => true
  | Op.driveCreate _ => true
  | _ => false

/-- Number of artifact-store calls in a trace. -/
def countDriveOps (l : List Op) : Nat :=
  (l.filter isDriveOp).length

/-- A string-valued cell write: the cross-reference (hyperlink) write. -/
def isHyperWrite : Op → Bool
  | Op.updateValues _ (CellValue.str _) => true
  | _ => false

/-- A boolean-valued cell write: the Summary View completion mark. -/
def isMarkWrite : Op → Bool
  | Op.updateValues _ (CellValue.boolVal _) => true
  | _ => false

/-- Scans a trace left to right: `true` iff no completion-mark write occurs
before the first cross-reference write (in particular, if the trace holds no
cross-reference write, it holds no mark write at all). -/
def checkMarkAfterHyper : List Op → Bool
  | [] => true
  | op :: t =>
    if isHyperWrite op then true
    else if isMarkWrite op then false
    else checkMarkAfterHyper t

/-! ## Helper lemmas -/

theorem findIdxO_cons_pos {α : Type} {p : α → Bool} {a : α} (t : List α)
    (h : p a = true) : findIdxO p (a :: t) = some 0 := by
  simp [findIdxO, h]

theorem findIdxO_cons_neg {α : Type} {p : α → Bool} {a : α} (t : List α)
    (h : p a = false) :
    findIdxO p (a :: t) = Option.map (fun n => n + 1) (findIdxO p t) := by
  simp [findIdxO, h]

theorem findIdxO_none_iff {α : Type} (p : α → Bool) (l : List α) :
    findIdxO p l = none ↔ ∀ x ∈ l, p x = false := by
  induction l with
  | nil => simp [findIdxO]
  | cons a t ih =>
    cases hpa : p a with
    | true =>
      rw [findIdxO_cons_pos t hpa]
      simp only [List.mem_cons]
      constructor
      · intro h; exact absurd h (by simp)
      · intro h; rw [h a (Or.inl rfl)] at hpa; exact absurd hpa (by simp)
    | false =>
      rw [findIdxO_cons_neg t hpa]
      simp only [Option.map_eq_none', List.mem_cons, ih]
      constructor
      · intro h x hx
        rcases hx with hx | hx
        · subst hx; exact hpa
        · exact h x hx
      · intro h x hx
        exact h x (Or.inr hx)

theorem findIdxO_some_spec {α : Type} {p : α → Bool} {l : List α} {i : Nat}
    (h : findIdxO p l = some i) :
    ∃ hi : i < l.length, p (l.get ⟨i, hi⟩) = true := by
  induction l generalizing i with
  | nil => simp [findIdxO] at h
  | cons a t ih =>
    cases hpa : p a with
    | true =>
      rw [findIdxO_cons_pos t hpa] at h
      have h0 : i = 0 := by simpa using h.symm
      subst h0
      exact ⟨Nat.succ_pos _, by simpa using hpa⟩
    | false =>
      rw [findIdxO_cons_neg t hpa, Option.map_eq_some'] at h
      obtain ⟨n, hn, hni⟩ := h
      obtain ⟨hlt, hp⟩ := ih hn
      subst hni
      exact ⟨Nat.succ_lt_succ hlt, by simpa using hp⟩

theorem findIdxO_eq_of_unique {α : Type} {p : α → Bool} {l : List α} {i : Nat}
    (hi : i < l.length) (hp : p (l.get ⟨i, hi⟩) = true)
    (huniq : ∀ j (hj : j < l.length), p (l.get ⟨j, hj⟩) = true → j = i) :
    findIdxO p l = some i := by
  cases hfind : findIdxO p l with
  | none =>
    exfalso
    have hall := (findIdxO_none_iff p l).mp hfind
    have hfalse := hall (l.get ⟨i, hi⟩) (l.get_mem i hi)
    rw [hp] at hfalse
    exact Bool.noConfusion hfalse
  | some k =>
    obtain ⟨hk, hpk⟩ := findIdxO_some_spec hfind
    rw [huniq k hk hpk]

theorem listLeads_self_append (l t : List Char) : listLeads l (l ++ t) = true := by
  induction l with
  | nil => rfl
  | cons c cs ih => simp [listLeads, ih]

theorem containsSub_of_leads {needle hay : List Char}
    (h : listLeads needle hay = true) : listContainsSub needle hay = true := by
  cases hay with
  | nil => simpa [listContainsSub] using h
  | cons c t => simp [listContainsSub, h]

theorem containsSub_parts (pre mid post : List Char) :
    listContainsSub mid (pre ++ (mid ++ post)) = true := by
  induction pre with
  | nil => exact containsSub_of_leads (listLeads_self_append mid post)
  | cons c cs ih =>
    have hstep : listContainsSub mid ((c :: cs) ++ (mid ++ post)) =
        (listLeads mid ((c :: cs) ++ (mid ++ post)) ||
          listContainsSub mid (cs ++ (mid ++ post))) := rfl
    rw [hstep, ih]
    simp

theorem strData_append (a b : String) : (a ++ b).data = a.data ++ b.data :=
  String.data_append a b

theorem strIncludes_concat3 (a b c : String) : strIncludes (a ++ b ++ c) b = true := by
  unfold strIncludes
  rw [strData_append, strData_append, List.append_assoc]
  exact containsSub_parts a.data b.data c.data

/-- An operation that is not a cell write. -/
def opNotUpd : Op → Bool
  | Op.updateValues _ _ => false
  | _ => true

theorem checkMark_append {l1 : List Op} (l2 : List Op)
    (h : ∀ op ∈ l1, opNotUpd op = true) :
    checkMarkAfterHyper (l1 ++ l2) = checkMarkAfterHyper l2 := by
  induction l1 with
  | nil => rfl
  | cons op t ih =>
    have hop := h op (List.mem_cons_self op t)
    have hrest : ∀ x ∈ t, opNotUpd x = true :=
      fun x hx => h x (List.mem_cons_of_mem op hx)
    cases op with
    | updateValues c v => exact absurd hop (by simp [opNotUpd])
    | getValues r =>
      simp only [List.cons_append, checkMarkAfterHyper, isHyperWrite, isMarkWrite,
        if_false]
      exact ih hrest
    | driveSearch n =>
      simp only [List.cons_append, checkMarkAfterHyper, isHyperWrite, isMarkWrite,
        if_false]
      exact ih hrest
    | driveCreate n =>
      simp only [List.cons_append, checkMarkAfterHyper, isHyperWrite, isMarkWrite,
        if_false]
      exact ih hrest

theorem checkMark_of_noUpd {l : List Op} (h : ∀ op ∈ l, opNotUpd op = true) :
    checkMarkAfterHyper l = true := by
  have hcat := checkMark_append ([] : List Op) h
  rw [List.append_nil] at hcat
  rw [hcat]
  rfl

theorem checkMark_hyperCons (c s : String) (t : List Op) :
    checkMarkAfterHyper (Op.updateValues c (CellValue.str s) :: t) = true := by
  simp [checkMarkAfterHyper, isHyperWrite]

theorem find?_append_of_none {α : Type} {p : α → Bool} {l1 : List α} (l2 : List α)
    (h : l1.find? p = none) : (l1 ++ l2).find? p = l2.find? p := by
  induction l1 with
  | nil => rfl
  | cons a t ih =>
    cases hpa : p a with
    | true => simp [List.find?, hpa] at h
    | false =>
      simp only [List.find?, hpa] at h
      simp only [List.cons_append, List.find?, hpa]
      exact ih h

theorem gid_ne_empty (s : String) : ("gid" ++ s) ≠ "" := by
  intro h
  have h2 := congrArg String.data h
  rw [strData_append] at h2
  simp at h2

theorem link_ne_empty (s : String) : ("https://drive.example/" ++ s) ≠ "" := by
  intro h
  have h2 := congrArg String.data h
  rw [strData_append] at h2
  simp at h2

/-! ## Claim theorems -/

/-- C5: `findRowIndex` (the row lookup in `planilha`) returns the unique index
`i` with `normalize(R[i]) == normalize(t)` (diacritic-stripping, lower-casing,
trimming normalization), returns not-found when no index matches, and matching
is case- and diacritic-insensitive: row label "JOÃO SILVA" matches target
"joao silva". -/
theorem C5_findRow_unique_normalized :
    (∀ (R : List (Option String)) (t : String) (i : Nat) (hi : i < R.length),
      normalizeText ((R.get ⟨i, hi⟩).getD "") = normalizeText t →
      (∀ j (hj : j < R.length),
        normalizeText ((R.get ⟨j, hj⟩).getD "") = normalizeText t → j = i) →
      findRowIndex R t = some i) ∧
    (∀ (R : List (Option String)) (t : String),
      (∀ x ∈ R, normalizeText (x.getD "") ≠ normalizeText t) →
      findRowIndex R t = none) ∧
    findRowIndex [some "JOÃO SILVA"] "joao silva" = some 0 := by
  refine ⟨?_, ?_, by decide⟩
  · intro R t i hi hmatch huniq
    refine findIdxO_eq_of_unique hi ?_ ?_
    · rw [decide_eq_true_eq]
      exact hmatch
    · intro j hj hpj
      rw [decide_eq_true_eq] at hpj
      exact huniq j hj hpj
  · intro R t h
    refine (findIdxO_none_iff _ _).mpr ?_
    intro x hx
    exact decide_eq_false (h x hx)

/-- C5 witness: a concrete unique match. -/
theorem C5_witness : findRowIndex [some "Ana"] "ana" = some 0 :=
  C5_findRow_unique_normalized.1 [some "Ana"] "ana" 0 (by decide) (by decide)
    (fun j hj _ => by simpa using Nat.lt_one_iff.mp (by simpa using hj))

/-- C1 counterexample: the claim predicts that header "Comp - Marco" matches
period "Março" (normalized-substring period test); the spec-worded lookup
`specLedgerColIndexNormalized` indeed returns index 0 there, but the code's
ledger lookup `findLedgerColIndex` tests the RAW label for the period name as
well and returns not-found. -/
theorem C1_counterexample :
    specLedgerColIndexNormalized [some "Comp - Marco"] "Março" = some 0 ∧
    findLedgerColIndex [some "Comp - Marco"] "Março" = none := by decide

/-- C1 (amended): the Ledger column lookup used by the main-table write path
of `planilha` returns the index of the first column whose RAW label contains
the raw period name as a substring and also contains the raw marker token
"Comp"; no normalization is applied to either test, so a header lacking the
diacritics of the period name does NOT match. -/
theorem C1_ledger_column_raw_match :
    (∀ (H : List (Option String)) (mes : String) (i : Nat),
      findLedgerColIndex H mes = some i →
      ∃ hi : i < H.length,
        strIncludes ((H.get ⟨i, hi⟩).getD "") mes = true ∧
        strIncludes ((H.get ⟨i, hi⟩).getD "") "Comp" = true) ∧
    (∀ (H : List (Option String)) (mes : String),
      (∀ h ∈ H, strIncludes (h.getD "") mes = false ∨
        strIncludes (h.getD "") "Comp" = false) →
      findLedgerColIndex H mes = none) ∧
    findLedgerColIndex [some "Comp - Março"] "Março" = some 0 := by
  refine ⟨?_, ?_, by decide⟩
  · intro H mes i h
    obtain ⟨hi, hp⟩ := findIdxO_some_spec h
    rw [Bool.and_eq_true] at hp
    exact ⟨hi, hp.1, hp.2⟩
  · intro H mes h
    refine (findIdxO_none_iff _ _).mpr ?_
    intro x hx
    rcases h x hx with hf | hf
    · rw [hf, Bool.false_and]
    · rw [hf, Bool.and_false]

/-- C1 witness: a header carrying the period name but no marker token is
rejected by the amended characterization. -/
theorem C1_witness : findLedgerColIndex [some "Janeiro"] "Janeiro" = none :=
  C1_ledger_column_raw_match.2.1 [some "Janeiro"] "Janeiro" (by decide)

/-- C7 counterexample: the claim asserts every offset `0 ≤ k ≤ 25` yields a
valid single uppercase column letter, but from the configured start letter
`B` (hard-coded in `config.ts`), offset 25 yields "[" (char code 91), which
is not an uppercase letter. -/
theorem C7_counterexample :
    getColumnFromOffset 25 = "[" ∧ ¬('A' ≤ '[' ∧ '[' ≤ 'Z') := by decide

/-- C7 (amended): from the configured start letter `B`, the single-letter
scheme is valid exactly for offsets `0 ≤ k ≤ 24` (25 columns, B..Z): there
`getColumnFromOffset k` is the single letter `k` positions after `B`, an
uppercase letter; in particular offset 0 gives "B" and offset 10 gives "L". -/
theorem C7_single_letter_scheme :
    (∀ k : Nat, k ≤ 24 →
      getColumnFromOffset k = String.mk [Char.ofNat ('B'.toNat + k)] ∧
      'A'.toNat ≤ 'B'.toNat + k ∧ 'B'.toNat + k ≤ 'Z'.toNat) ∧
    getColumnFromOffset 0 = "B" ∧ getColumnFromOffset 10 = "L" := by
  refine ⟨?_, by decide, by decide⟩
  intro k hk
  refine ⟨rfl, ?_, ?_⟩
  · show 65 ≤ 66 + k
    omega
  · show 66 + k ≤ 90
    omega

/-- C7 witness: offset 5 from `B` is the uppercase letter `G`. -/
theorem C7_witness :
    getColumnFromOffset 5 = String.mk [Char.ofNat ('B'.toNat + 5)] ∧
    'A'.toNat ≤ 'B'.toNat + 5 ∧ 'B'.toNat + 5 ≤ 'Z'.toNat :=
  C7_single_letter_scheme.1 5 (by decide)

/-- Membership fact: the upsert trace contains a create exactly when no
artifact of that name pre-exists. -/
theorem upsert_create_iff (drive : DriveState) (nm : String) (b : List Nat) :
    Op.driveCreate nm ∈ (upsert drive nm b).1 ↔
    drive.files.find? (fun f => decide (f.name = nm)) = none := by
  unfold upsert
  cases hfind : drive.files.find? (fun f => decide (f.name = nm)) with
  | none => simp
  | some f =>
    by_cases hid : f.id = "" ∨ f.link = ""
    · simp [hid]
    · simp [hid]

/-- C3: the artifact-store upsert is idempotent by name: a second call with
the same file name (even with different byte content) returns the `{id, link}`
the first call produced, performs no create, and leaves the store unchanged;
and a create is performed exactly when no artifact of that name exists. -/
theorem C3_upsert_idempotent_by_name :
    (∀ (drive : DriveState) (nm : String) (b1 b2 : List Nat)
       (idlink : String × String),
      (upsert drive nm b1).2.2 = some idlink →
      (upsert (upsert drive nm b1).2.1 nm b2).2.2 = some idlink ∧
      (upsert (upsert drive nm b1).2.1 nm b2).2.1 = (upsert drive nm b1).2.1 ∧
      Op.driveCreate nm ∉ (upsert (upsert drive nm b1).2.1 nm b2).1) ∧
    (∀ (drive : DriveState) (nm : String) (b : List Nat),
      Op.driveCreate nm ∈ (upsert drive nm b).1 ↔
      drive.files.find? (fun f => decide (f.name = nm)) = none) := by
  refine ⟨?_, upsert_create_iff⟩
  intro drive nm b1 b2 idlink h1
  cases hfind : drive.files.find? (fun f => decide (f.name = nm)) with
  | some f =>
    by_cases hid : f.id = "" ∨ f.link = ""
    · rw [show upsert drive nm b1 = ([Op.driveSearch nm], drive, none) from by
        unfold upsert; rw [hfind]; simp [hid]] at h1
      simp at h1
    · have hcall : upsert drive nm b1 = ([Op.driveSearch nm], drive, some (f.id, f.link)) := by
        unfold upsert; rw [hfind]; simp [hid]
      rw [hcall] at h1 ⊢
      simp only at h1 ⊢
      have hcall2 : upsert drive nm b2 = ([Op.driveSearch nm], drive, some (f.id, f.link)) := by
        unfold upsert; rw [hfind]; simp [hid]
      rw [hcall2]
      refine ⟨by simpa using h1, rfl, by simp⟩
  | none =>
    have hcall : upsert drive nm b1 =
        ([Op.driveSearch nm, Op.driveCreate nm],
          ⟨drive.files ++ [⟨nm, "gid" ++ toString drive.nextId,
            "https://drive.example/" ++ toString drive.nextId, b1⟩], drive.nextId + 1⟩,
          some ("gid" ++ toString drive.nextId,
            "https://drive.example/" ++ toString drive.nextId)) := by
      unfold upsert; rw [hfind]
    rw [hcall] at h1 ⊢
    simp only at h1 ⊢
    have hfind2 : (drive.files ++ [(⟨nm, "gid" ++ toString drive.nextId,
        "https://drive.example/" ++ toString drive.nextId, b1⟩ : Artifact)]).find?
          (fun f => decide (f.name = nm)) =
        some ⟨nm, "gid" ++ toString drive.nextId,
          "https://drive.example/" ++ toString drive.nextId, b1⟩ := by
      rw [find?_append_of_none _ hfind]
      simp [List.find?]
    have hcall2 : upsert ⟨drive.files ++ [⟨nm, "gid" ++ toString drive.nextId,
        "https://drive.example/" ++ toString drive.nextId, b1⟩], drive.nextId + 1⟩ nm b2 =
        ([Op.driveSearch nm],
          ⟨drive.files ++ [⟨nm, "gid" ++ toString drive.nextId,
            "https://drive.example/" ++ toString drive.nextId, b1⟩], drive.nextId + 1⟩,
          some ("gid" ++ toString drive.nextId,
            "https://drive.example/" ++ toString drive.nextId)) := by
      unfold upsert
      rw [show (⟨drive.files ++ [⟨nm, "gid" ++ toString drive.nextId,
        "https://drive.example/" ++ toString drive.nextId, b1⟩], drive.nextId + 1⟩ :
          DriveState).files = drive.files ++ [⟨nm, "gid" ++ toString drive.nextId,
          "https://drive.example/" ++ toString drive.nextId, b1⟩] from rfl]
      rw [hfind2]
      dsimp only
      rw [if_neg]
      push_neg
      exact ⟨gid_ne_empty _, link_ne_empty _⟩
    rw [hcall2]
    refine ⟨by simpa using h1, rfl, by simp⟩

/-- C3 witness: a concrete upsert pair with differing byte content. -/
theorem C3_witness :
    (upsert (upsert ⟨[], 0⟩ "a.jpg" [1]).2.1 "a.jpg" [2]).2.2 =
        some ("gid0", "https://drive.example/0") ∧
    (upsert (upsert ⟨[], 0⟩ "a.jpg" [1]).2.1 "a.jpg" [2]).2.1 =
        (upsert ⟨[], 0⟩ "a.jpg" [1]).2.1 ∧
    Op.driveCreate "a.jpg" ∉ (upsert (upsert ⟨[], 0⟩ "a.jpg" [1]).2.1 "a.jpg" [2]).1 :=
  C3_upsert_idempotent_by_name.1 ⟨[], 0⟩ "a.jpg" [1] [2]
    ("gid0", "https://drive.example/0") (by decide)

theorem strAppend_assoc (a b c : String) : a ++ b ++ c = a ++ (b ++ c) := by
  apply String.ext
  rw [strData_append, strData_append, strData_append, strData_append,
    List.append_assoc]

theorem strAppend_empty (a : String) : a ++ "" = a := by
  apply String.ext
  rw [strData_append]
  simp

theorem strIncludes_of_split (w a b c : String) (hw : w = a ++ b ++ c) :
    strIncludes w b = true := by
  rw [hw]
  exact strIncludes_concat3 a b c

/-- C2: when the resolved target cell already holds a non-empty value,
`planilha` fails with the duplicate error naming payer, period, cell address
and existing value — before any artifact-store call: the trace holds exactly
the three sheet reads and zero drive operations, and drive and sheet states
are unchanged. -/
theorem C2_duplicate_guard_before_artifact :
    ∀ (sheet : SheetData) (drive : DriveState) (updateFails : List String)
      (nome : String) (receipt : ReceiptUpload) (mes : String)
      (ri ci : Nat) (v : String),
      findRowIndex sheet.names nome = some ri →
      findLedgerColIndex sheet.headers mes = some ci →
      lookupCell sheet.cells (cellAddrOf sheetName ri ci) = some v →
      v ≠ "" →
      planilha sheet drive updateFails nome receipt mes =
        ([Op.getValues (sheetName ++ "!" ++ nameRange),
          Op.getValues (sheetName ++ "!" ++ headerRange),
          Op.getValues (cellAddrOf sheetName ri ci)],
          drive, sheet,
          some (PlanilhaError.duplicate nome mes (cellAddrOf sheetName ri ci) v)) ∧
      countDriveOps (planilha sheet drive updateFails nome receipt mes).1 = 0 ∧
      strIncludes (errMessage (PlanilhaError.duplicate nome mes
        (cellAddrOf sheetName ri ci) v)) nome = true ∧
      strIncludes (errMessage (PlanilhaError.duplicate nome mes
        (cellAddrOf sheetName ri ci) v)) mes = true ∧
      strIncludes (errMessage (PlanilhaError.duplicate nome mes
        (cellAddrOf sheetName ri ci) v)) (cellAddrOf sheetName ri ci) = true ∧
      strIncludes (errMessage (PlanilhaError.duplicate nome mes
        (cellAddrOf sheetName ri ci) v)) v = true := by
  intro sheet drive updateFails nome receipt mes ri ci v hrow hcol hcell hv
  have hmain : planilha sheet drive updateFails nome receipt mes =
      ([Op.getValues (sheetName ++ "!" ++ nameRange),
        Op.getValues (sheetName ++ "!" ++ headerRange),
        Op.getValues (cellAddrOf sheetName ri ci)],
        drive, sheet,
        some (PlanilhaError.duplicate nome mes (cellAddrOf sheetName ri ci) v)) := by
    unfold planilha
    rw [hrow]
    dsimp only
    rw [hcol]
    dsimp only
    rw [hcell]
    dsimp only
    rw [if_neg hv]
    rfl
  have hmsg : errMessage (PlanilhaError.duplicate nome mes (cellAddrOf sheetName ri ci) v) =
      "Comprovante já existe para " ++ nome ++ " em " ++ mes ++ ". Célula " ++
        cellAddrOf sheetName ri ci ++ " já contém: " ++ v := rfl
  refine ⟨hmain, ?_, ?_, ?_, ?_, ?_⟩
  · rw [hmain]
    rfl
  · refine strIncludes_of_split _ "Comprovante já existe para " nome
      (" em " ++ (mes ++ (". Célula " ++ (cellAddrOf sheetName ri ci ++
        (" já contém: " ++ v))))) ?_
    rw [hmsg]
    simp [strAppend_assoc]
  · refine strIncludes_of_split _
      ("Comprovante já existe para " ++ (nome ++ " em ")) mes
      (". Célula " ++ (cellAddrOf sheetName ri ci ++ (" já contém: " ++ v))) ?_
    rw [hmsg]
    simp [strAppend_assoc]
  · refine strIncludes_of_split _
      ("Comprovante já existe para " ++ (nome ++ (" em " ++ (mes ++ ". Célula "))))
      (cellAddrOf sheetName ri ci) (" já contém: " ++ v) ?_
    rw [hmsg]
    simp [strAppend_assoc]
  · refine strIncludes_of_split _
      ("Comprovante já existe para " ++ (nome ++ (" em " ++ (mes ++ (". Célula " ++
        (cellAddrOf sheetName ri ci ++ " já contém: ")))))) v "" ?_
    rw [hmsg]
    simp [strAppend_assoc, strAppend_empty]

/-- C2 witness: a concrete duplicate submission. -/
theorem C2_witness :
    planilha ⟨[some "João Silva"], [some "Comp - Fevereiro"],
        [some "João Silva"], [some "Fevereiro"], [("Comprovantes!B2", "old")]⟩
      ⟨[], 0⟩ [] "João Silva" ⟨"João_Fev.jpg", [1]⟩ "Fevereiro" =
      ([Op.getValues (sheetName ++ "!" ++ nameRange),
        Op.getValues (sheetName ++ "!" ++ headerRange),
        Op.getValues (cellAddrOf sheetName 0 0)],
        ⟨[], 0⟩,
        ⟨[some "João Silva"], [some "Comp - Fevereiro"],
          [some "João Silva"], [some "Fevereiro"], [("Comprovantes!B2", "old")]⟩,
        some (PlanilhaError.duplicate "João Silva" "Fevereiro"
          (cellAddrOf sheetName 0 0) "old")) ∧
    countDriveOps (planilha ⟨[some "João Silva"], [some "Comp - Fevereiro"],
        [some "João Silva"], [some "Fevereiro"], [("Comprovantes!B2", "old")]⟩
      ⟨[], 0⟩ [] "João Silva" ⟨"João_Fev.jpg", [1]⟩ "Fevereiro").1 = 0 ∧
    strIncludes (errMessage (PlanilhaError.duplicate "João Silva" "Fevereiro"
      (cellAddrOf sheetName 0 0) "old")) "João Silva" = true ∧
    strIncludes (errMessage (PlanilhaError.duplicate "João Silva" "Fevereiro"
      (cellAddrOf sheetName 0 0) "old")) "Fevereiro" = true ∧
    strIncludes (errMessage (PlanilhaError.duplicate "João Silva" "Fevereiro"
      (cellAddrOf sheetName 0 0) "old")) (cellAddrOf sheetName 0 0) = true ∧
    strIncludes (errMessage (PlanilhaError.duplicate "João Silva" "Fevereiro"
      (cellAddrOf sheetName 0 0) "old")) "old" = true :=
  C2_duplicate_guard_before_artifact
    ⟨[some "João Silva"], [some "Comp - Fevereiro"],
      [some "João Silva"], [some "Fevereiro"], [("Comprovantes!B2", "old")]⟩
    ⟨[], 0⟩ [] "João Silva" ⟨"João_Fev.jpg", [1]⟩ "Fevereiro" 0 0 "old"
    (by decide) (by decide) (by decide) (by decide)

theorem upsert_ops_noUpd (drive : DriveState) (nm : String) (b : List Nat) :
    ∀ op ∈ (upsert drive nm b).1, opNotUpd op = true := by
  intro op hop
  unfold upsert at hop
  cases hfind : drive.files.find? (fun f => decide (f.name = nm)) with
  | some f =>
    rw [hfind] at hop
    dsimp only at hop
    by_cases hid : f.id = "" ∨ f.link = ""
    · rw [if_pos hid] at hop
      simp only [List.mem_singleton] at hop
      subst hop
      rfl
    · rw [if_neg hid] at hop
      simp only [List.mem_singleton] at hop
      subst hop
      rfl
  | none =>
    rw [hfind] at hop
    dsimp only at hop
    rcases List.mem_cons.mp hop with h | h
    · subst h; rfl
    · simp only [List.mem_singleton] at h
      subst h
      rfl

theorem noUpd_two_gets (a b : String) :
    ∀ op ∈ [Op.getValues a, Op.getValues b], opNotUpd op = true := by
  intro op hop
  rcases List.mem_cons.mp hop with h | hop
  · subst h; rfl
  · rcases List.mem_cons.mp hop with h | hop
    · subst h; rfl
    · simp at hop

theorem noUpd_three_gets (a b c : String) :
    ∀ op ∈ [Op.getValues a, Op.getValues b, Op.getValues c], opNotUpd op = true := by
  intro op hop
  rcases List.mem_cons.mp hop with h | hop
  · subst h; rfl
  · rcases List.mem_cons.mp hop with h | hop
    · subst h; rfl
    · rcases List.mem_cons.mp hop with h | hop
      · subst h; rfl
      · simp at hop

theorem checkMark_planilhaCont (sheet : SheetData) (drive : DriveState)
    (updateFails : List String) (nome : String) (receipt : ReceiptUpload)
    (mes : String) (targetCell : String) (ops1 : List Op)
    (h1 : ∀ op ∈ ops1, opNotUpd op = true) :
    checkMarkAfterHyper (planilhaCont sheet drive updateFails nome receipt mes
      targetCell ops1).1 = true := by
  unfold planilhaCont
  rcases hu : upsert drive receipt.fileName receipt.buffer with ⟨uops, drive2, res⟩
  have huops : ∀ op ∈ uops, opNotUpd op = true := by
    have hall := upsert_ops_noUpd drive receipt.fileName receipt.buffer
    rw [hu] at hall
    exact hall
  have h1u : ∀ op ∈ ops1 ++ uops, opNotUpd op = true := by
    intro op hop
    rcases List.mem_append.mp hop with h | h
    · exact h1 op h
    · exact huops op h
  cases res with
  | none =>
    dsimp only
    exact checkMark_of_noUpd h1u
  | some p =>
    rcases p with ⟨fid, flink⟩
    dsimp only
    by_cases hfail : targetCell ∈ updateFails
    · rw [if_pos hfail]
      exact checkMark_of_noUpd h1u
    · rw [if_neg hfail]
      dsimp only
      rcases hm : marcarComprovanteNaAbaMain
          (setCell sheet targetCell (hyperlinkFormula flink receipt.fileName))
          updateFails nome mes with ⟨mops, sheet3, merr⟩
      dsimp only
      have hassoc : ((ops1 ++ uops) ++ [Op.updateValues targetCell
          (CellValue.str (hyperlinkFormula flink receipt.fileName))]) ++ mops =
          (ops1 ++ uops) ++ (Op.updateValues targetCell
            (CellValue.str (hyperlinkFormula flink receipt.fileName)) :: mops) := by
        simp
      rw [hassoc, checkMark_append _ h1u]
      exact checkMark_hyperCons _ _ _

/-- C4: in every execution of `planilha`, the Summary View completion mark
(the boolean `true` written in the `Main` sheet) is written only after the
cross-reference formula has been written into the Ledger cell — never before,
and not at all when no cross-reference write succeeds; the Summary View
column lookup matches the period by normalized substring without requiring
the marker token (e.g. header "Marco" matches period "Março"); and the row
lookup used there re-resolves by normalized equality. -/
theorem C4_mark_only_after_crossref :
    (∀ (sheet : SheetData) (drive : DriveState) (updateFails : List String)
       (nome : String) (receipt : ReceiptUpload) (mes : String),
      checkMarkAfterHyper (planilha sheet drive updateFails nome receipt mes).1 = true) ∧
    (∀ (H : List (Option String)) (mes : String) (i : Nat),
      findMainColIndex H mes = some i →
      ∃ hi : i < H.length,
        strIncludes (normalizeText ((H.get ⟨i, hi⟩).getD ""))
          (normalizeText mes) = true) ∧
    findMainColIndex [some "Marco"] "Março" = some 0 ∧
    (∀ (R : List (Option String)) (nome : String) (i : Nat),
      findRowIndex R nome = some i →
      ∃ hi : i < R.length,
        normalizeText ((R.get ⟨i, hi⟩).getD "") = normalizeText nome) := by
  refine ⟨?_, ?_, by decide, ?_⟩
  · intro sheet drive updateFails nome receipt mes
    unfold planilha
    cases hrow : findRowIndex sheet.names nome with
    | none =>
      dsimp only
      exact checkMark_of_noUpd (noUpd_two_gets _ _)
    | some nomeIndex =>
      dsimp only
      cases hcol : findLedgerColIndex sheet.headers mes with
      | none =>
        dsimp only
        exact checkMark_of_noUpd (noUpd_two_gets _ _)
      | some colIndex =>
        dsimp only
        cases hcell : lookupCell sheet.cells (cellAddrOf sheetName nomeIndex colIndex) with
        | none =>
          dsimp only
          exact checkMark_planilhaCont _ _ _ _ _ _ _ _ (noUpd_three_gets _ _ _)
        | some v =>
          dsimp only
          by_cases hve : v = ""
          · rw [if_pos hve]
            exact checkMark_planilhaCont _ _ _ _ _ _ _ _ (noUpd_three_gets _ _ _)
          · rw [if_neg hve]
            exact checkMark_of_noUpd (noUpd_three_gets _ _ _)
  · intro H mes i h
    obtain ⟨hi, hp⟩ := findIdxO_some_spec h
    exact ⟨hi, hp⟩
  · intro R nome i h
    obtain ⟨hi, hp⟩ := findIdxO_some_spec h
    rw [decide_eq_true_eq] at hp
    exact ⟨hi, hp⟩

/-- C4 witness: the normalized-substring Summary View column lookup at a
concrete match. -/
theorem C4_witness :
    ∃ hi : 0 < [some "Fevereiro"].length,
      strIncludes (normalizeText (([some "Fevereiro"].get ⟨0, hi⟩).getD ""))
        (normalizeText "Fevereiro") = true :=
  C4_mark_only_after_crossref.2.1 [some "Fevereiro"] "Fevereiro" 0 (by decide)

/-- C6: when the classifier returns the sentinel "Não é PIX",
`processPixReceipt` returns the not-receipt result immediately, with an empty
remote trace and unchanged drive/sheet state; and the error status arises
only when a step throws: either the classifier itself, or `planilha` after a
non-sentinel classification. -/
theorem C6_sentinel_not_receipt :
    (∀ (sheet : SheetData) (drive : DriveState) (updateFails : List String)
       (buf : List Nat) (ext mes : String),
      processPixReceipt sheet drive updateFails (Except.ok sentinelNaoEPix) buf ext mes =
        (⟨false, some Reason.notPix, none, none, none, none⟩, [], drive, sheet)) ∧
    (∀ (sheet : SheetData) (drive : DriveState) (updateFails : List String)
       (cls : Except String String) (buf : List Nat) (ext mes : String),
      (processPixReceipt sheet drive updateFails cls buf ext mes).1.reason =
          some Reason.error →
      (∃ m, cls = Except.error m) ∨
      (∃ nome e, cls = Except.ok nome ∧ nome ≠ sentinelNaoEPix ∧
        (planilha sheet drive updateFails (capitalizeName nome)
          ⟨nomeFormatadoDe (capitalizeName nome) mes ext, buf⟩ mes).2.2.2 = some e)) := by
  constructor
  · intro sheet drive updateFails buf ext mes
    unfold processPixReceipt
    dsimp only
    rw [if_pos rfl]
  · intro sheet drive updateFails cls buf ext mes h
    cases cls with
    | error m => exact Or.inl ⟨m, rfl⟩
    | ok nome =>
      by_cases hs : nome = sentinelNaoEPix
      · subst hs
        unfold processPixReceipt at h
        dsimp only at h
        rw [if_pos rfl] at h
        simp at h
      · unfold processPixReceipt at h
        dsimp only at h
        rw [if_neg hs] at h
        rcases hp : planilha sheet drive updateFails (capitalizeName nome)
            ⟨nomeFormatadoDe (capitalizeName nome) mes ext, buf⟩ mes with ⟨ops, d2, s2, err⟩
        rw [hp] at h
        cases err with
        | none => simp at h
        | some e => exact Or.inr ⟨nome, e, rfl, hs, by rw [hp]⟩

/-- C6 witness: a classifier throw yields the error reason and is traced back
to the classifier. -/
theorem C6_witness :
    (∃ m, (Except.error "falha" : Except String String) = Except.error m) ∨
    (∃ nome e, (Except.error "falha" : Except String String) = Except.ok nome ∧
      nome ≠ sentinelNaoEPix ∧
      (planilha ⟨[], [], [], [], []⟩ ⟨[], 0⟩ [] (capitalizeName nome)
        ⟨nomeFormatadoDe (capitalizeName nome) "Maio" "jpg", []⟩ "Maio").2.2.2 = some e) :=
  C6_sentinel_not_receipt.2 ⟨[], [], [], [], []⟩ ⟨[], 0⟩ []
    (Except.error "falha") [] "jpg" "Maio" (by decide)

/-- C8: the synthesized filename is the first space-separated token of the
capitalized name, then "_", then the first 3 characters of the period name,
then the extension with a leading dot prepended exactly when missing; on a
successful run the pipeline returns exactly that name.  Concretely, name
"João Silva" with period "Fevereiro" and extension "jpg" gives
"João_Fev.jpg". -/
theorem C8_filename_synthesis :
    (∀ (sheet : SheetData) (drive : DriveState) (updateFails : List String)
       (nome : String) (buf : List Nat) (ext mes : String),
      nome ≠ sentinelNaoEPix →
      (planilha sheet drive updateFails (capitalizeName nome)
        ⟨nomeFormatadoDe (capitalizeName nome) mes ext, buf⟩ mes).2.2.2 = none →
      (processPixReceipt sheet drive updateFails (Except.ok nome) buf ext mes).1 =
        ⟨true, none, none, some (capitalizeName nome), some mes,
          some (String.mk ((splitOnSpace (capitalizeName nome).data).headD []) ++ "_" ++
            String.mk (mes.data.take 3) ++
            (if startsWithDot ext then ext else "." ++ ext))⟩) ∧
    nomeFormatadoDe (capitalizeName "João Silva") "Fevereiro" "jpg" = "João_Fev.jpg" ∧
    capitalizeName "JOÃO SILVA" = "João Silva" := by
  refine ⟨?_, by decide, by decide⟩
  intro sheet drive updateFails nome buf ext mes hnome hplan
  unfold processPixReceipt
  dsimp only
  rw [if_neg hnome]
  rcases hp : planilha sheet drive updateFails (capitalizeName nome)
      ⟨nomeFormatadoDe (capitalizeName nome) mes ext, buf⟩ mes with ⟨ops, d2, s2, err⟩
  rw [hp] at hplan
  dsimp only at hplan
  subst hplan
  rfl

/-- C8 witness: the concrete pipeline run returning "João_Fev.jpg". -/
theorem C8_witness :
    (processPixReceipt ⟨[some "João Silva"], [some "Comp - Fevereiro"],
        [some "João Silva"], [some "Fevereiro"], []⟩ ⟨[], 0⟩ []
      (Except.ok "JOÃO SILVA") [1] "jpg" "Fevereiro").1 =
      ⟨true, none, none, some "João Silva", some "Fevereiro", some "João_Fev.jpg"⟩ := by
  rw [C8_filename_synthesis.1 ⟨[some "João Silva"], [some "Comp - Fevereiro"],
    [some "João Silva"], [some "Fevereiro"], []⟩ ⟨[], 0⟩ [] "JOÃO SILVA" [1] "jpg"
    "Fevereiro" (by decide) (by decide)]
  decide

/-- C9: `processPixReceipt` is total at its interface: a classifier throw is
converted to `{success: false, reason: error}` carrying the message; a
`planilha` throw after a non-sentinel classification is converted to the same
shape carrying the thrown message; and every result is either a success with
no reason or a failure carrying a reason. -/
theorem C9_total_interface :
    (∀ (sheet : SheetData) (drive : DriveState) (updateFails : List String)
       (m : String) (buf : List Nat) (ext mes : String),
      processPixReceipt sheet drive updateFails (Except.error m) buf ext mes =
        (⟨false, some Reason.error, some m, none, none, none⟩, [], drive, sheet)) ∧
    (∀ (sheet : SheetData) (drive : DriveState) (updateFails : List String)
       (nome : String) (buf : List Nat) (ext mes : String) (e : PlanilhaError),
      nome ≠ sentinelNaoEPix →
      (planilha sheet drive updateFails (capitalizeName nome)
        ⟨nomeFormatadoDe (capitalizeName nome) mes ext, buf⟩ mes).2.2.2 = some e →
      (processPixReceipt sheet drive updateFails (Except.ok nome) buf ext mes).1 =
        ⟨false, some Reason.error, some (errMessage e), none, none, none⟩) ∧
    (∀ (sheet : SheetData) (drive : DriveState) (updateFails : List String)
       (cls : Except String String) (buf : List Nat) (ext mes : String),
      (processPixReceipt sheet drive updateFails cls buf ext mes).1.success = true ∨
      ((processPixReceipt sheet drive updateFails cls buf ext mes).1.success = false ∧
        ((processPixReceipt sheet drive updateFails cls buf ext mes).1.reason).isSome =
          true)) := by
  refine ⟨fun _ _ _ _ _ _ _ => rfl, ?_, ?_⟩
  · intro sheet drive updateFails nome buf ext mes e hnome hplan
    unfold processPixReceipt
    dsimp only
    rw [if_neg hnome]
    rcases hp : planilha sheet drive updateFails (capitalizeName nome)
        ⟨nomeFormatadoDe (capitalizeName nome) mes ext, buf⟩ mes with ⟨ops, d2, s2, err⟩
    rw [hp] at hplan
    dsimp only at hplan
    subst hplan
    rfl
  · intro sheet drive updateFails cls buf ext mes
    cases cls with
    | error m => exact Or.inr ⟨rfl, rfl⟩
    | ok nome =>
      by_cases hs : nome = sentinelNaoEPix
      · subst hs
        unfold processPixReceipt
        dsimp only
        rw [if_pos rfl]
        exact Or.inr ⟨rfl, rfl⟩
      · unfold processPixReceipt
        dsimp only
        rw [if_neg hs]
        rcases hp : planilha sheet drive updateFails (capitalizeName nome)
            ⟨nomeFormatadoDe (capitalizeName nome) mes ext, buf⟩ mes with ⟨ops, d2, s2, err⟩
        cases err with
        | none => exact Or.inl rfl
        | some e => exact Or.inr ⟨rfl, rfl⟩

/-- C9 witness: a `planilha` throw (row not found) surfaces as the error
result carrying the thrown message. -/
theorem C9_witness :
    (processPixReceipt ⟨[], [], [], [], []⟩ ⟨[], 0⟩ []
      (Except.ok "Ana") [] "jpg" "Maio").1 =
      ⟨false, some Reason.error,
        some (errMessage (PlanilhaError.nomeNotFound "Ana")), none, none, none⟩ :=
  C9_total_interface.2.1 ⟨[], [], [], [], []⟩ ⟨[], 0⟩ [] "Ana" [] "jpg" "Maio"
    (PlanilhaError.nomeNotFound "Ana") (by decide) (by decide)

theorem marcar_no_duplicate (sheet : SheetData) (updateFails : List String)
    (nome mes n m c v : String) :
    (marcarComprovanteNaAbaMain sheet updateFails nome mes).2.2 ≠
      some (PlanilhaError.duplicate n m c v) := by
  unfold marcarComprovanteNaAbaMain
  cases hrow : findRowIndex sheet.mainNames nome with
  | none => dsimp only; simp
  | some i =>
    dsimp only
    cases hcol : findMainColIndex sheet.mainHeaders mes with
    | none => dsimp only; simp
    | some j =>
      dsimp only
      by_cases hf : cellAddrOf mainSheetName i j ∈ updateFails
      · rw [if_pos hf]; simp
      · rw [if_neg hf]; simp

theorem planilhaCont_no_duplicate (sheet : SheetData) (drive : DriveState)
    (updateFails : List String) (nome : String) (receipt : ReceiptUpload)
    (mes targetCell : String) (ops1 : List Op) (n m c v : String) :
    (planilhaCont sheet drive updateFails nome receipt mes targetCell ops1).2.2.2 ≠
      some (PlanilhaError.duplicate n m c v) := by
  unfold planilhaCont
  rcases hu : upsert drive receipt.fileName receipt.buffer with ⟨uops, drive2, res⟩
  cases res with
  | none => dsimp only; simp
  | some p =>
    rcases p with ⟨fid, flink⟩
    dsimp only
    by_cases hfail : targetCell ∈ updateFails
    · rw [if_pos hfail]; simp
    · rw [if_neg hfail]
      dsimp only
      rcases hm : marcarComprovanteNaAbaMain
          (setCell sheet targetCell (hyperlinkFormula flink receipt.fileName))
          updateFails nome mes with ⟨mops, sheet3, merr⟩
      dsimp only
      have hnd := marcar_no_duplicate
        (setCell sheet targetCell (hyperlinkFormula flink receipt.fileName))
        updateFails nome mes n m c v
      rw [hm] at hnd
      exact hnd

theorem upsert_search_mem (drive : DriveState) (nm : String) (b : List Nat) :
    Op.driveSearch nm ∈ (upsert drive nm b).1 := by
  unfold upsert
  cases hfind : drive.files.find? (fun f => decide (f.name = nm)) with
  | some f =>
    dsimp only
    by_cases hid : f.id = "" ∨ f.link = ""
    · rw [if_pos hid]; exact List.mem_singleton.mpr rfl
    · rw [if_neg hid]; exact List.mem_singleton.mpr rfl
  | none => exact List.mem_cons_self _ _

theorem planilhaCont_search_mem (sheet : SheetData) (drive : DriveState)
    (updateFails : List String) (nome : String) (receipt : ReceiptUpload)
    (mes targetCell : String) (ops1 : List Op) :
    Op.driveSearch receipt.fileName ∈
      (planilhaCont sheet drive updateFails nome receipt mes targetCell ops1).1 := by
  unfold planilhaCont
  rcases hu : upsert drive receipt.fileName receipt.buffer with ⟨uops, drive2, res⟩
  have hmem : Op.driveSearch receipt.fileName ∈ uops := by
    have h := upsert_search_mem drive receipt.fileName receipt.buffer
    rw [hu] at h
    exact h
  cases res with
  | none =>
    dsimp only
    exact List.mem_append.mpr (Or.inr hmem)
  | some p =>
    rcases p with ⟨fid, flink⟩
    dsimp only
    by_cases hfail : targetCell ∈ updateFails
    · rw [if_pos hfail]
      exact List.mem_append.mpr (Or.inr hmem)
    · rw [if_neg hfail]
      dsimp only
      rcases hm : marcarComprovanteNaAbaMain
          (setCell sheet targetCell (hyperlinkFormula flink receipt.fileName))
          updateFails nome mes with ⟨mops, sheet3, merr⟩
      dsimp only
      exact List.mem_append.mpr (Or.inl (List.mem_append.mpr (Or.inl
        (List.mem_append.mpr (Or.inr hmem)))))

/-- C10: the duplicate guard treats the cell as filled exactly when the read
value is present and is a non-empty string: the duplicate error is raised iff
the read returned `some v` with `v ≠ ""` (so whitespace-only content counts
as filled), and when the value is entirely absent or the empty string the
execution proceeds to the artifact step (the trace contains the Drive
search). -/
theorem C10_guard_iff_present_nonempty :
    (∀ (sheet : SheetData) (drive : DriveState) (updateFails : List String)
       (nome : String) (receipt : ReceiptUpload) (mes : String)
       (ri ci : Nat) (v : String),
      findRowIndex sheet.names nome = some ri →
      findLedgerColIndex sheet.headers mes = some ci →
      lookupCell sheet.cells (cellAddrOf sheetName ri ci) = some v →
      v ≠ "" →
      (planilha sheet drive updateFails nome receipt mes).2.2.2 =
        some (PlanilhaError.duplicate nome mes (cellAddrOf sheetName ri ci) v)) ∧
    (∀ (sheet : SheetData) (drive : DriveState) (updateFails : List String)
       (nome : String) (receipt : ReceiptUpload) (mes n m c v : String),
      (planilha sheet drive updateFails nome receipt mes).2.2.2 =
          some (PlanilhaError.duplicate n m c v) →
      n = nome ∧ m = mes ∧ lookupCell sheet.cells c = some v ∧ v ≠ "") ∧
    (∀ (sheet : SheetData) (drive : DriveState) (updateFails : List String)
       (nome : String) (receipt : ReceiptUpload) (mes : String) (ri ci : Nat),
      findRowIndex sheet.names nome = some ri →
      findLedgerColIndex sheet.headers mes = some ci →
      (lookupCell sheet.cells (cellAddrOf sheetName ri ci) = none ∨
        lookupCell sheet.cells (cellAddrOf sheetName ri ci) = some "") →
      Op.driveSearch receipt.fileName ∈
        (planilha sheet drive updateFails nome receipt mes).1) := by
  refine ⟨?_, ?_, ?_⟩
  · intro sheet drive updateFails nome receipt mes ri ci v hrow hcol hcell hv
    unfold planilha
    rw [hrow]
    dsimp only
    rw [hcol]
    dsimp only
    rw [hcell]
    dsimp only
    rw [if_neg hv]
  · intro sheet drive updateFails nome receipt mes n m c v h
    unfold planilha at h
    rcases hrow : findRowIndex sheet.names nome with _ | ri
    · rw [hrow] at h
      dsimp only at h
      simp at h
    · rw [hrow] at h
      dsimp only at h
      rcases hcol : findLedgerColIndex sheet.headers mes with _ | ci
      · rw [hcol] at h
        dsimp only at h
        simp at h
      · rw [hcol] at h
        dsimp only at h
        rcases hcell : lookupCell sheet.cells (cellAddrOf sheetName ri ci) with _ | w
        · rw [hcell] at h
          dsimp only at h
          exact absurd h (planilhaCont_no_duplicate _ _ _ _ _ _ _ _ _ _ _ _)
        · rw [hcell] at h
          dsimp only at h
          by_cases hwe : w = ""
          · rw [if_pos hwe] at h
            exact absurd h (planilhaCont_no_duplicate _ _ _ _ _ _ _ _ _ _ _ _)
          · rw [if_neg hwe] at h
            dsimp only at h
            simp only [Option.some.injEq, PlanilhaError.duplicate.injEq] at h
            obtain ⟨h1, h2, h3, h4⟩ := h
            subst h1
            subst h2
            subst h3
            subst h4
            exact ⟨rfl, rfl, hcell, hwe⟩
  · intro sheet drive updateFails nome receipt mes ri ci hrow hcol hdisj
    unfold planilha
    rw [hrow]
    dsimp only
    rw [hcol]
    dsimp only
    rcases hdisj with hc | hc
    · rw [hc]
      dsimp only
      exact planilhaCont_search_mem _ _ _ _ _ _ _ _
    · rw [hc]
      dsimp only
      rw [if_pos rfl]
      exact planilhaCont_search_mem _ _ _ _ _ _ _ _

/-- C10 witness: whitespace-only content " " counts as filled and raises the
duplicate error. -/
theorem C10_witness :
    (planilha ⟨[some "Ana"], [some "Comp - Maio"], [], [],
        [("Comprovantes!B2", " ")]⟩ ⟨[], 0⟩ [] "Ana" ⟨"f.jpg", []⟩ "Maio").2.2.2 =
      some (PlanilhaError.duplicate "Ana" "Maio" (cellAddrOf sheetName 0 0) " ") :=
  C10_guard_iff_present_nonempty.1
    ⟨[some "Ana"], [some "Comp - Maio"], [], [], [("Comprovantes!B2", " ")]⟩
    ⟨[], 0⟩ [] "Ana" ⟨"f.jpg", []⟩ "Maio" 0 0 " "
    (by decide) (by decide) (by decide) (by decide)
